import Mathlib

/-!
Verification of raw2vhd.

A shallow embedding of `raw2vhd.py`, a converter from RAW disk images to
Azure-compatible fixed-size VHD images, together with proofs about its
geometry calculator (`vhd_chs`), footer encoder (`vhd_footer`,
`vhd_footer_checksum`) and conversion orchestrator (`convert`).

Python integers are modelled as `Nat` (all quantities in the program are
non-negative and `/` on non-negative ints is floor division).  `struct.pack`
is modelled as a fallible serializer returning `Option (List Nat)`: a `uint`
field packs `w` big-endian bytes and fails when the value exceeds the field
width, an `s` field pads or truncates a byte string to its width.  The
random UUID (`uuid.uuid4().bytes`) is passed in as an explicit 16-byte
parameter, and the file system in `convert` is modelled by the contents of
the input file, the prior contents of the output file and the resulting
output.
-/

/-- Geometry calculator, translated from `vhd_chs` in `raw2vhd.py`:
computes `(cylinders, heads, sectors_per_track)` from the RAW image size. -/
def vhd_chs (size : Nat) : Nat × Nat × Nat :=
  let sectors := size / 512
  let sectors := if 65535 * 16 * 255 < sectors then 65535 * 16 * 255 else sectors
  if 65535 * 16 * 63 ≤ sectors then
    let sectors_per_track := 255
    let heads := 16
    let cylinder_times_heads := sectors / sectors_per_track
    (cylinder_times_heads / heads, heads, sectors_per_track)
  else
    let sectors_per_track := 17
    let cylinder_times_heads := sectors / sectors_per_track
    let heads := (cylinder_times_heads + 1023) >>> 10
    let heads := if heads < 4 then 4 else heads
    let st1 :=
      if heads <<< 10 ≤ cylinder_times_heads ∨ 16 < heads then
        (31, 16, sectors / 31)
      else
        (sectors_per_track, heads, cylinder_times_heads)
    let st2 :=
      if st1.2.1 <<< 10 ≤ st1.2.2 then
        (63, 16, sectors / 63)
      else
        st1
    (st2.2.2 / st2.2.1, st2.2.1, st2.1)

/-- The geometry decision procedure exactly as worded in the specification
(section 4.1): clamp the sector count, take the 255/16 branch at the
`65535*16*63` threshold, otherwise start at 17 sectors per track with
`heads = (cylinderTimesHeads + 1023) >> 10` floored at 4, and switch to the
31- then the 63-sectors branch under the stated conditions, in that order. -/
def computeGeometry_spec (imageSizeBytes : Nat) : Nat × Nat × Nat :=
  let sectors := min (imageSizeBytes / 512) (65535 * 16 * 255)
  if 65535 * 16 * 63 ≤ sectors then
    let sectorsPerTrack := 255
    let heads := 16
    let cylinderTimesHeads := sectors / sectorsPerTrack
    (cylinderTimesHeads / heads, heads, sectorsPerTrack)
  else
    let sectorsPerTrack := 17
    let cylinderTimesHeads := sectors / sectorsPerTrack
    let heads := max ((cylinderTimesHeads + 1023) >>> 10) 4
    let st1 :=
      if heads * 1024 ≤ cylinderTimesHeads ∨ 16 < heads then
        (31, 16, sectors / 31)
      else
        (sectorsPerTrack, heads, cylinderTimesHeads)
    let st2 :=
      if st1.2.1 * 1024 ≤ st1.2.2 then
        (63, 16, sectors / 63)
      else
        st1
    (st2.2.2 / st2.2.1, st2.2.1, st2.1)

/-- Big-endian byte serialization of `v` into `w` bytes
(the byte at offset `i` is `(v >> 8*(w-1-i)) mod 256`). -/
def toBytesBE : Nat → Nat → List Nat
  | 0, _ => []
  | w + 1, v => (v >>> (8 * w)) % 256 :: toBytesBE w v

/-- Big-endian interpretation of a byte list as an unsigned integer. -/
def fromBytesBE (l : List Nat) : Nat :=
  l.foldl (fun acc b => acc * 256 + b) 0

/-- Serialization of one unsigned big-endian integer field of width `w`
bytes, as `struct.pack` does it: fails (`struct.error`) when the value does
not fit the field. -/
def packUint (w v : Nat) : Option (List Nat) :=
  if v < 2 ^ (8 * w) then some (toBytesBE w v) else none

/-- Serialization of an `s` field of `struct.pack`: the byte string is
truncated or null-padded to exactly `w` bytes. -/
def packStr (w : Nat) (s : List Nat) : List Nat :=
  s.take w ++ List.replicate (w - s.length) 0

/-- One field of a `struct.pack` format string: either a fixed-width byte
string (`s`) or a fixed-width big-endian unsigned integer (`B`/`H`/`I`/`Q`). -/
inductive PackItem where
  | str (w : Nat) (s : List Nat)
  | uint (w v : Nat)

/-- Serialization of a single `struct.pack` field. -/
def packItem : PackItem → Option (List Nat)
  | .str w s => some (packStr w s)
  | .uint w v => packUint w v

/-- Serialization of a whole `struct.pack` field list, concatenated in
order; fails as soon as one field fails. -/
def packItems : List PackItem → Option (List Nat)
  | [] => some []
  | f :: fs => (packItem f).bind fun b => (packItems fs).map fun rest => b ++ rest

/-- The ASCII bytes of the cookie `"conectix"`. -/
def cookieBytes : List Nat := [99, 111, 110, 101, 99, 116, 105, 120]

/-- The ASCII bytes of the creator application `"win "`. -/
def creatorAppBytes : List Nat := [119, 105, 110, 32]

/-- The ASCII bytes of the creator host OS `"Wi2k"`. -/
def creatorHostOsBytes : List Nat := [87, 105, 50, 107]

/-- One serialization pass of the footer: `struct.pack` with format
`>8sIIQI4sI4sQQHBBII16sB427s` applied to the field list of `vhd_footer`,
with the geometry triple and the checksum passed in explicitly. -/
def packFooterFields (size cylinders heads sectors_per_track checksum : Nat)
    (unique_id : List Nat) : Option (List Nat) :=
  packItems [
    .str 8 cookieBytes,
    .uint 4 2,
    .uint 4 0x00010000,
    .uint 8 0xFFFFFFFFFFFFFFFF,
    .uint 4 0,
    .str 4 creatorAppBytes,
    .uint 4 0x00060003,
    .str 4 creatorHostOsBytes,
    .uint 8 size,
    .uint 8 size,
    .uint 2 cylinders,
    .uint 1 heads,
    .uint 1 sectors_per_track,
    .uint 4 2,
    .uint 4 checksum,
    .str 16 unique_id,
    .uint 1 0,
    .str 427 (List.replicate 427 0)]

/-- Footer checksum, translated from `vhd_footer_checksum` in `raw2vhd.py`:
the byte sum of the footer, XORed with `0xFFFFFFFF`. -/
def vhd_footer_checksum (footer : List Nat) : Nat :=
  footer.sum ^^^ 0xFFFFFFFF

/-- Footer encoder, translated from `vhd_footer` in `raw2vhd.py`: a first
serialization pass with checksum field 0, then a second pass with the
checksum of the first pass.  The 16 random UUID bytes are an explicit
parameter. -/
def vhd_footer (raw_file_size : Nat) (unique_id : List Nat) : Option (List Nat) :=
  match vhd_chs raw_file_size with
  | (cylinders, heads, sectors_per_track) =>
    (packFooterFields raw_file_size cylinders heads sectors_per_track 0 unique_id).bind
      fun footer_tmp =>
        packFooterFields raw_file_size cylinders heads sectors_per_track
          (vhd_footer_checksum footer_tmp) unique_id

/-- The serialized footer written out field by field: the concatenation that
a successful `packFooterFields size cyl heads spt ck uid` produces. -/
def packedFooter (size cylinders heads sectors_per_track checksum : Nat)
    (unique_id : List Nat) : List Nat :=
  cookieBytes ++ toBytesBE 4 2 ++ toBytesBE 4 0x00010000 ++
    toBytesBE 8 0xFFFFFFFFFFFFFFFF ++ toBytesBE 4 0 ++ creatorAppBytes ++
    toBytesBE 4 0x00060003 ++ creatorHostOsBytes ++ toBytesBE 8 size ++
    toBytesBE 8 size ++ toBytesBE 2 cylinders ++ toBytesBE 1 heads ++
    toBytesBE 1 sectors_per_track ++ toBytesBE 4 2 ++ toBytesBE 4 checksum ++
    unique_id ++ [0] ++ List.replicate 427 0

/-- The footer that `vhd_footer size uid` produces when the checksum value
is `ck`: `packedFooter` at the geometry computed by `vhd_chs`. -/
def footerBytes (size ck : Nat) (uid : List Nat) : List Nat :=
  packedFooter size (vhd_chs size).1 (vhd_chs size).2.1 (vhd_chs size).2.2 ck uid

/-- The first 64 bytes of the serialized footer: every field before the
checksum (cookie through disk type). -/
def footerHead (size cyl heads spt : Nat) : List Nat :=
  cookieBytes ++ toBytesBE 4 2 ++ toBytesBE 4 0x00010000 ++
    toBytesBE 8 0xFFFFFFFFFFFFFFFF ++ toBytesBE 4 0 ++ creatorAppBytes ++
    toBytesBE 4 0x00060003 ++ creatorHostOsBytes ++ toBytesBE 8 size ++
    toBytesBE 8 size ++ toBytesBE 2 cyl ++ toBytesBE 1 heads ++ toBytesBE 1 spt ++
    toBytesBE 4 2

/-- The bytes of the serialized footer after the checksum field: unique id,
saved state and the reserved zeros. -/
def footerTail (uid : List Nat) : List Nat :=
  uid ++ [0] ++ List.replicate 427 0

/-- Conversion orchestrator, translated from `convert` in `raw2vhd.py`.
The RAW file is its byte contents `raw`; `vhd0` is the prior contents of the
output path (`none` when the file does not exist).  The result is the
raised error (if any) paired with the contents of the output path
afterwards: on misalignment the error is raised before the output file is
opened, so the output keeps its prior contents; otherwise the output is
truncated, the input is copied verbatim and the footer is appended (were
footer serialization to fail, the copied bytes would already be written). -/
def convert (raw unique_id : List Nat) (vhd0 : Option (List Nat)) :
    Except String Unit × Option (List Nat) :=
  if raw.length % (1024 * 1024) ≠ 0 then
    (Except.error "RAW image size is not aligned to 1 MB", vhd0)
  else
    match vhd_footer raw.length unique_id with
    | some footer => (Except.ok (), some (raw ++ footer))
    | none => (Except.error "struct.error: argument out of range", some raw)

/-! ## Helper lemmas -/

theorem toBytesBE_length (w v : Nat) : (toBytesBE w v).length = w := by
  induction w generalizing v with
  | zero => rfl
  | succ w ih => simp [toBytesBE, ih]

theorem toBytesBE_mem_lt (w v : Nat) : ∀ b ∈ toBytesBE w v, b < 256 := by
  induction w generalizing v with
  | zero => simp [toBytesBE]
  | succ w ih =>
    intro b hb
    rcases List.mem_cons.mp hb with h | h
    · subst h; exact Nat.mod_lt _ (by norm_num)
    · exact ih v b h

theorem packUint_of_lt {w v : Nat} (h : v < 2 ^ (8 * w)) :
    packUint w v = some (toBytesBE w v) := by
  simp [packUint, h]

theorem packStr_of_length {w : Nat} {s : List Nat} (h : s.length = w) :
    packStr w s = s := by
  subst h
  simp [packStr, List.take_length]

theorem list_sum_le_of_lt (l : List Nat) (h : ∀ b ∈ l, b < 256) :
    l.sum ≤ l.length * 255 := by
  induction l with
  | nil => simp
  | cons x xs ih =>
    have hx : x < 256 := h x (List.mem_cons_self x xs)
    have hxs := ih fun b hb => h b (List.mem_cons_of_mem x hb)
    simp only [List.sum_cons, List.length_cons]
    omega

theorem vhd_chs_bounds (size : Nat) :
    (vhd_chs size).1 ≤ 65535 ∧
    4 ≤ (vhd_chs size).2.1 ∧ (vhd_chs size).2.1 ≤ 16 ∧
    ((vhd_chs size).2.2 = 17 ∨ (vhd_chs size).2.2 = 31 ∨ (vhd_chs size).2.2 = 63 ∨
      (vhd_chs size).2.2 = 255) ∧
    (vhd_chs size).1 * (vhd_chs size).2.1 * (vhd_chs size).2.2 * 512 ≤ size := by
  have hshl : ∀ n : Nat, n <<< 10 = n * 1024 := fun n => by rw [Nat.shiftLeft_eq]
  have hshr : ∀ n : Nat, n >>> 10 = n / 1024 := fun n => by rw [Nat.shiftRight_eq_div_pow]
  simp only [vhd_chs, hshl, hshr]
  split_ifs <;> dsimp only at * <;> try omega
  rename_i hclamp hhigh hfloor hsw1 hsw2
  have hq : size / 512 / 17 < (size / 512 / 17 + 1023) / 1024 * 1024 ∧
      (size / 512 / 17 + 1023) / 1024 ≤ 16 := by omega
  have hpos : 0 < (size / 512 / 17 + 1023) / 1024 := by omega
  have hcyl : size / 512 / 17 / ((size / 512 / 17 + 1023) / 1024) < 1024 :=
    (Nat.div_lt_iff_lt_mul hpos).mpr (by omega)
  refine ⟨by omega, by omega, by omega, by tauto, ?_⟩
  calc size / 512 / 17 / ((size / 512 / 17 + 1023) / 1024) * ((size / 512 / 17 + 1023) / 1024) *
      17 * 512 ≤ size / 512 / 17 * 17 * 512 :=
        Nat.mul_le_mul_right _ (Nat.mul_le_mul_right _ (Nat.div_mul_le_self _ _))
    _ ≤ size / 512 * 512 := Nat.mul_le_mul_right _ (Nat.div_mul_le_self _ _)
    _ ≤ size := Nat.div_mul_le_self _ _

theorem packedFooter_length (size cyl heads spt ck : Nat) (uid : List Nat)
    (h : uid.length = 16) :
    (packedFooter size cyl heads spt ck uid).length = 512 := by
  simp only [packedFooter, List.length_append, toBytesBE_length, List.length_replicate,
    cookieBytes, creatorAppBytes, creatorHostOsBytes, List.length_cons, List.length_nil,
    List.length_singleton, h]

theorem packedFooter_mem_lt (size cyl heads spt ck : Nat) (uid : List Nat)
    (h : ∀ b ∈ uid, b < 256) :
    ∀ b ∈ packedFooter size cyl heads spt ck uid, b < 256 := by
  intro b hb
  simp only [packedFooter, List.mem_append] at hb
  rcases hb with ((((((((((((((((h'|h')|h')|h')|h')|h')|h')|h')|h')|h')|h')|h')|h')|h')|h')|h')|h')|h' <;>
    first
      | exact toBytesBE_mem_lt _ _ b h'
      | exact h b h'
      | (simp only [cookieBytes, creatorAppBytes, creatorHostOsBytes, List.mem_cons,
          List.not_mem_nil, or_false] at h'; omega)
      | (rw [List.eq_of_mem_replicate h']; norm_num)

theorem packedFooter_sum_lt (size cyl heads spt ck : Nat) (uid : List Nat)
    (hlen : uid.length = 16) (h : ∀ b ∈ uid, b < 256) :
    (packedFooter size cyl heads spt ck uid).sum < 2 ^ 32 := by
  have := list_sum_le_of_lt _ (packedFooter_mem_lt size cyl heads spt ck uid h)
  rw [packedFooter_length size cyl heads spt ck uid hlen] at this
  omega

theorem packFooterFields_eq (size cyl heads spt ck : Nat) (uid : List Nat)
    (h1 : size < 2 ^ 64) (h2 : cyl < 2 ^ 16) (h3 : heads < 2 ^ 8) (h4 : spt < 2 ^ 8)
    (h5 : ck < 2 ^ 32) (h6 : uid.length = 16) :
    packFooterFields size cyl heads spt ck uid =
      some (packedFooter size cyl heads spt ck uid) := by
  have c1 : packUint 4 2 = some (toBytesBE 4 2) := packUint_of_lt (by norm_num)
  have c2 : packUint 4 0x00010000 = some (toBytesBE 4 0x00010000) :=
    packUint_of_lt (by norm_num)
  have c3 : packUint 8 0xFFFFFFFFFFFFFFFF = some (toBytesBE 8 0xFFFFFFFFFFFFFFFF) :=
    packUint_of_lt (by norm_num)
  have c4 : packUint 4 0 = some (toBytesBE 4 0) := packUint_of_lt (by norm_num)
  have c5 : packUint 4 0x00060003 = some (toBytesBE 4 0x00060003) :=
    packUint_of_lt (by norm_num)
  have c6 : packUint 1 0 = some (toBytesBE 1 0) := packUint_of_lt (by norm_num)
  have e1 : packUint 8 size = some (toBytesBE 8 size) := packUint_of_lt (by omega)
  have e2 : packUint 2 cyl = some (toBytesBE 2 cyl) := packUint_of_lt (by omega)
  have e3 : packUint 1 heads = some (toBytesBE 1 heads) := packUint_of_lt (by omega)
  have e4 : packUint 1 spt = some (toBytesBE 1 spt) := packUint_of_lt (by omega)
  have e5 : packUint 4 ck = some (toBytesBE 4 ck) := packUint_of_lt (by omega)
  have s1 : packStr 8 cookieBytes = cookieBytes := packStr_of_length (by decide)
  have s2 : packStr 4 creatorAppBytes = creatorAppBytes := packStr_of_length (by decide)
  have s3 : packStr 4 creatorHostOsBytes = creatorHostOsBytes := packStr_of_length (by decide)
  have s4 : packStr 427 (List.replicate 427 0) = List.replicate 427 0 :=
    packStr_of_length (List.length_replicate _ _)
  have su : packStr 16 uid = uid := packStr_of_length h6
  have t0 : toBytesBE 1 0 = [0] := rfl
  simp only [packFooterFields, packItems, packItem, c1, c2, c3, c4, c5, c6,
    e1, e2, e3, e4, e5, s1, s2, s3, s4, su, t0, Option.some_bind, Option.map_some',
    List.append_nil, Option.some.injEq, packedFooter, List.append_assoc]

theorem vhd_footer_eq (size : Nat) (uid : List Nat)
    (h1 : size < 2 ^ 64) (h6 : uid.length = 16) (hb : ∀ b ∈ uid, b < 256) :
    vhd_footer_checksum (footerBytes size 0 uid) < 2 ^ 32 ∧
    vhd_footer size uid =
      some (footerBytes size (vhd_footer_checksum (footerBytes size 0 uid)) uid) := by
  obtain ⟨hc, hh4, hh16, hspt, -⟩ := vhd_chs_bounds size
  have h2 : (vhd_chs size).1 < 2 ^ 16 := by omega
  have h3 : (vhd_chs size).2.1 < 2 ^ 8 := by omega
  have h4 : (vhd_chs size).2.2 < 2 ^ 8 := by rcases hspt with h | h | h | h <;> omega
  have hck : vhd_footer_checksum (footerBytes size 0 uid) < 2 ^ 32 := by
    have hs := packedFooter_sum_lt size (vhd_chs size).1 (vhd_chs size).2.1
      (vhd_chs size).2.2 0 uid h6 hb
    exact Nat.xor_lt_two_pow hs (by norm_num)
  refine ⟨hck, ?_⟩
  have p0 := packFooterFields_eq size (vhd_chs size).1 (vhd_chs size).2.1
    (vhd_chs size).2.2 0 uid h1 h2 h3 h4 (by norm_num) h6
  have p1 := packFooterFields_eq size (vhd_chs size).1 (vhd_chs size).2.1
    (vhd_chs size).2.2 (vhd_footer_checksum (footerBytes size 0 uid)) uid
    h1 h2 h3 h4 hck h6
  rcases hv : vhd_chs size with ⟨c, hd, s⟩
  rw [hv] at p0 p1
  simp only [footerBytes, hv] at p0 p1
  simp only [vhd_footer, hv, footerBytes, p0, Option.some_bind]
  exact p1

theorem packedFooter_decomp (size cyl heads spt ck : Nat) (uid : List Nat) :
    packedFooter size cyl heads spt ck uid =
      footerHead size cyl heads spt ++ (toBytesBE 4 ck ++ footerTail uid) := by
  simp only [packedFooter, footerHead, footerTail, List.append_assoc]

theorem footerHead_length (size cyl heads spt : Nat) :
    (footerHead size cyl heads spt).length = 64 := by
  simp [footerHead, toBytesBE_length, cookieBytes, creatorAppBytes, creatorHostOsBytes]

theorem packedFooter_take_64 (size cyl heads spt ck : Nat) (uid : List Nat) :
    (packedFooter size cyl heads spt ck uid).take 64 = footerHead size cyl heads spt := by
  rw [packedFooter_decomp]
  exact List.take_left' (footerHead_length size cyl heads spt)

theorem packedFooter_drop_64 (size cyl heads spt ck : Nat) (uid : List Nat) :
    (packedFooter size cyl heads spt ck uid).drop 64 =
      toBytesBE 4 ck ++ footerTail uid := by
  rw [packedFooter_decomp]
  exact List.drop_left' (footerHead_length size cyl heads spt)

theorem packedFooter_checksum_field (size cyl heads spt ck : Nat) (uid : List Nat) :
    ((packedFooter size cyl heads spt ck uid).drop 64).take 4 = toBytesBE 4 ck := by
  rw [packedFooter_drop_64]
  exact List.take_left' (toBytesBE_length 4 ck)

theorem packedFooter_drop_68 (size cyl heads spt ck : Nat) (uid : List Nat) :
    (packedFooter size cyl heads spt ck uid).drop 68 = footerTail uid := by
  have : (68 : Nat) = 64 + 4 := by norm_num
  rw [this, ← List.drop_drop, packedFooter_drop_64]
  exact List.drop_left' (toBytesBE_length 4 ck)

theorem packedFooter_drop_84 (size cyl heads spt ck : Nat) (uid : List Nat)
    (h : uid.length = 16) :
    (packedFooter size cyl heads spt ck uid).drop 84 = [0] ++ List.replicate 427 0 := by
  have : (84 : Nat) = 68 + 16 := by norm_num
  rw [this, ← List.drop_drop, packedFooter_drop_68]
  show (uid ++ [0] ++ List.replicate 427 0).drop 16 = [0] ++ List.replicate 427 0
  rw [List.append_assoc]
  exact List.drop_left' h

theorem fromBytesBE_toBytesBE_4 (v : Nat) (h : v < 2 ^ 32) :
    fromBytesBE (toBytesBE 4 v) = v := by
  simp only [toBytesBE, fromBytesBE, List.foldl, Nat.shiftRight_eq_div_pow]
  norm_num
  omega

/-! ## Claims -/

/-- Claim C1: for every non-negative `imageSizeBytes`, `vhd_chs` follows exactly the
legacy decision procedure of spec section 4.1: floor-divide by 512, clamp to
`65535*16*255`, take the 255/16 branch at the `65535*16*63` threshold,
otherwise start at 17 sectors per track with `heads = (cth + 1023) >> 10`
floored at 4, switch to 31 then 63 sectors per track with 16 heads under the
stated conditions in the stated order, and finish with
`cylinders = cth / heads`, all divisions being floor divisions. -/
theorem vhd_chs_follows_spec_procedure (size : Nat) :
    computeGeometry_spec size = vhd_chs size := by
  rw [computeGeometry_spec, vhd_chs]
  have hmin : min (size / 512) (65535 * 16 * 255) =
      if 65535 * 16 * 255 < size / 512 then 65535 * 16 * 255 else size / 512 := by
    split_ifs <;> omega
  have hmax : ∀ n : Nat, max n 4 = if n < 4 then 4 else n := by
    intro n; split_ifs <;> omega
  have hshl : ∀ n : Nat, n <<< 10 = n * 1024 := fun n => by rw [Nat.shiftLeft_eq]
  simp only [hmin, hmax, hshl]

/-- Counterexample to claim C2: at `size = 512 * 65535 * 16 * 63` the sector count
hits the `>= 65535*16*63` threshold, so the geometry calculator returns 255
sectors per track, not 63 as claimed. -/
theorem vhd_chs_at_63_threshold_not_63 :
    (vhd_chs (512 * (65535 * 16 * 63))).2.2 ≠ 63 := by decide

/-- Amended claim C2: `computeGeometry (512*65535*16*63)` returns
`sectorsPerTrack = 255` and `heads = 16` (the sector count `65535*16*63`
satisfies the `>= 65535*16*63` test, so the 255-sectors branch is taken). -/
theorem vhd_chs_at_63_threshold_is_255 :
    (vhd_chs (512 * (65535 * 16 * 63))).2.1 = 16 ∧
    (vhd_chs (512 * (65535 * 16 * 63))).2.2 = 255 := by decide

/-- Claim C3: for every size that is a multiple of 512, the geometry triple
satisfies `cylinders ≤ 65535`, `heads ∈ [4, 16]`,
`sectorsPerTrack ∈ {17, 31, 63, 255}` and
`cylinders * heads * sectorsPerTrack * 512 ≤ size`. -/
theorem vhd_chs_bounds_of_512_multiple (size : Nat) (h : 512 ∣ size) :
    (vhd_chs size).1 ≤ 65535 ∧
    4 ≤ (vhd_chs size).2.1 ∧ (vhd_chs size).2.1 ≤ 16 ∧
    ((vhd_chs size).2.2 = 17 ∨ (vhd_chs size).2.2 = 31 ∨ (vhd_chs size).2.2 = 63 ∨
      (vhd_chs size).2.2 = 255) ∧
    (vhd_chs size).1 * (vhd_chs size).2.1 * (vhd_chs size).2.2 * 512 ≤ size :=
  vhd_chs_bounds size

/-- Witness for C3 at `size = 1048576`. -/
theorem vhd_chs_bounds_of_512_multiple_witness :
    (vhd_chs 1048576).1 ≤ 65535 ∧
    4 ≤ (vhd_chs 1048576).2.1 ∧ (vhd_chs 1048576).2.1 ≤ 16 ∧
    ((vhd_chs 1048576).2.2 = 17 ∨ (vhd_chs 1048576).2.2 = 31 ∨
      (vhd_chs 1048576).2.2 = 63 ∨ (vhd_chs 1048576).2.2 = 255) ∧
    (vhd_chs 1048576).1 * (vhd_chs 1048576).2.1 * (vhd_chs 1048576).2.2 * 512 ≤ 1048576 :=
  vhd_chs_bounds_of_512_multiple 1048576 (by norm_num)

/-- Claim C10: the sectors-per-track output is not monotone in the image size:
at 34 MB, `cylinderTimesHeads = 69632 / 17 = 4096` is an exact multiple of
1024, `heads = (4096 + 1023) >> 10 = 4`, and `4 << 10 ≤ 4096` triggers the
switch to the 31-sectors branch giving `(140, 16, 31)`, while the strictly
larger 35 MB image gives `(843, 5, 17)`. -/
theorem vhd_chs_spt_not_monotone :
    vhd_chs (34 * 1048576) = (140, 16, 31) ∧
    vhd_chs (35 * 1048576) = (843, 5, 17) ∧
    34 * 1048576 / 512 / 17 = 4096 ∧
    4096 % 1024 = 0 ∧
    (4096 + 1023) >>> 10 = 4 ∧
    4 <<< 10 ≤ 4096 ∧
    34 * 1048576 < 35 * 1048576 ∧
    (vhd_chs (35 * 1048576)).2.2 < (vhd_chs (34 * 1048576)).2.2 := by decide

/-- Claim C4: for every image size that fits the 8-byte size fields of the footer (the
only sizes `os.path.getsize` can produce) and every 16-byte unique id, the
footer encoder succeeds and produces exactly 512 bytes, laid out big-endian
in declared field order with the fixed values: cookie `"conectix"`,
features 2, file format version `0x00010000`, data offset
`0xFFFFFFFFFFFFFFFF`, timestamp 0, creator application `"win "`, creator
version `0x00060003`, creator host OS `"Wi2k"`, original size = current
size = the image size, the `vhd_chs` geometry triple, disk type 2, the
checksum, the unique id, saved state 0, and 427 reserved zero bytes. -/
theorem vhd_footer_layout (size : Nat) (uid : List Nat) (h1 : size < 2 ^ 64)
    (h2 : uid.length = 16) (h3 : ∀ b ∈ uid, b < 256) :
    ∃ ck f, ck < 2 ^ 32 ∧
      vhd_footer size uid = some f ∧
      f.length = 512 ∧
      f = cookieBytes ++ toBytesBE 4 2 ++ toBytesBE 4 0x00010000 ++
        toBytesBE 8 0xFFFFFFFFFFFFFFFF ++ toBytesBE 4 0 ++ creatorAppBytes ++
        toBytesBE 4 0x00060003 ++ creatorHostOsBytes ++ toBytesBE 8 size ++
        toBytesBE 8 size ++ toBytesBE 2 (vhd_chs size).1 ++
        toBytesBE 1 (vhd_chs size).2.1 ++ toBytesBE 1 (vhd_chs size).2.2 ++
        toBytesBE 4 2 ++ toBytesBE 4 ck ++ uid ++ [0] ++ List.replicate 427 0 := by
  obtain ⟨hck, hf⟩ := vhd_footer_eq size uid h1 h2 h3
  exact ⟨vhd_footer_checksum (footerBytes size 0 uid), _, hck, hf,
    packedFooter_length _ _ _ _ _ _ h2, rfl⟩

/-- Witness for C4 at `size = 0` with the all-zero unique id. -/
theorem vhd_footer_layout_witness :
    ∃ ck f, ck < 2 ^ 32 ∧
      vhd_footer 0 (List.replicate 16 0) = some f ∧
      f.length = 512 ∧
      f = cookieBytes ++ toBytesBE 4 2 ++ toBytesBE 4 0x00010000 ++
        toBytesBE 8 0xFFFFFFFFFFFFFFFF ++ toBytesBE 4 0 ++ creatorAppBytes ++
        toBytesBE 4 0x00060003 ++ creatorHostOsBytes ++ toBytesBE 8 0 ++
        toBytesBE 8 0 ++ toBytesBE 2 (vhd_chs 0).1 ++
        toBytesBE 1 (vhd_chs 0).2.1 ++ toBytesBE 1 (vhd_chs 0).2.2 ++
        toBytesBE 4 2 ++ toBytesBE 4 ck ++ List.replicate 16 0 ++ [0] ++
        List.replicate 427 0 :=
  vhd_footer_layout 0 (List.replicate 16 0) (by norm_num) (by decide)
    (fun b hb => by rw [List.eq_of_mem_replicate hb]; norm_num)

/-- The first serialization pass at the geometry computed by `vhd_chs`
always succeeds for representable sizes and 16-byte unique ids. -/
theorem packFooterFields_geom_eq (size : Nat) (uid : List Nat) (ck : Nat)
    (h1 : size < 2 ^ 64) (hck : ck < 2 ^ 32) (h6 : uid.length = 16) :
    packFooterFields size (vhd_chs size).1 (vhd_chs size).2.1 (vhd_chs size).2.2 ck uid =
      some (packedFooter size (vhd_chs size).1 (vhd_chs size).2.1 (vhd_chs size).2.2 ck uid) := by
  obtain ⟨hc, hh4, hh16, hspt, -⟩ := vhd_chs_bounds size
  exact packFooterFields_eq size _ _ _ ck uid h1 (by omega) (by omega)
    (by rcases hspt with h | h | h | h <;> omega) hck h6

/-- Claim C5: for every footer the encoder returns, zeroing the 4-byte checksum
field (bytes 64..67) gives back exactly the first serialization pass (so the
two passes differ only in the checksum field), summing those 512 bytes as
unsigned byte values and XOR-ing with `0xFFFFFFFF` reproduces the stored
big-endian checksum field, and that stored value is the bitwise complement
of the byte sum truncated to 32 bits. -/
theorem vhd_footer_checksum_reproduces (size : Nat) (uid f : List Nat)
    (h1 : size < 2 ^ 64) (h2 : uid.length = 16) (h3 : ∀ b ∈ uid, b < 256)
    (hf : vhd_footer size uid = some f) :
    packFooterFields size (vhd_chs size).1 (vhd_chs size).2.1 (vhd_chs size).2.2 0 uid =
      some (f.take 64 ++ [0, 0, 0, 0] ++ f.drop 68) ∧
    fromBytesBE ((f.drop 64).take 4) =
      (f.take 64 ++ [0, 0, 0, 0] ++ f.drop 68).sum ^^^ 0xFFFFFFFF ∧
    (f.take 64 ++ [0, 0, 0, 0] ++ f.drop 68).sum < 2 ^ 32 ∧
    fromBytesBE ((f.drop 64).take 4) < 2 ^ 32 ∧
    ∀ i < 32, (fromBytesBE ((f.drop 64).take 4)).testBit i =
      !((f.take 64 ++ [0, 0, 0, 0] ++ f.drop 68).sum.testBit i) := by
  obtain ⟨hck, hfe⟩ := vhd_footer_eq size uid h1 h2 h3
  rw [hf] at hfe
  obtain rfl := Option.some.inj hfe
  simp only [footerBytes] at hck ⊢
  rw [packedFooter_take_64, packedFooter_drop_68, packedFooter_checksum_field]
  have hzeroed : footerHead size (vhd_chs size).1 (vhd_chs size).2.1 (vhd_chs size).2.2 ++
      [0, 0, 0, 0] ++ footerTail uid =
      packedFooter size (vhd_chs size).1 (vhd_chs size).2.1 (vhd_chs size).2.2 0 uid := by
    rw [packedFooter_decomp, List.append_assoc]
    rfl
  rw [hzeroed]
  have hfb := fromBytesBE_toBytesBE_4 _ hck
  refine ⟨packFooterFields_geom_eq size uid 0 h1 (by norm_num) h2, ?_, ?_, ?_, ?_⟩
  · rw [hfb]; rfl
  · exact packedFooter_sum_lt size _ _ _ 0 uid h2 h3
  · rw [hfb]; exact hck
  · intro i hi
    rw [hfb]
    simp only [vhd_footer_checksum, Nat.testBit_xor]
    have hm : (0xFFFFFFFF : Nat).testBit i = true := by
      rw [show (0xFFFFFFFF : Nat) = 2 ^ 32 - 1 by norm_num, Nat.testBit_two_pow_sub_one]
      simp [hi]
    rw [hm, Bool.xor_true]

/-- Witness for C5 at `size = 0` with the all-zero unique id (the first two
conjuncts of the claim, instantiated). -/
theorem vhd_footer_checksum_reproduces_witness :
    (packFooterFields 0 (vhd_chs 0).1 (vhd_chs 0).2.1 (vhd_chs 0).2.2 0
        (List.replicate 16 0) =
      some ((footerBytes 0 (vhd_footer_checksum (footerBytes 0 0 (List.replicate 16 0)))
          (List.replicate 16 0)).take 64 ++ [0, 0, 0, 0] ++
        (footerBytes 0 (vhd_footer_checksum (footerBytes 0 0 (List.replicate 16 0)))
          (List.replicate 16 0)).drop 68)) ∧
    fromBytesBE (((footerBytes 0 (vhd_footer_checksum (footerBytes 0 0 (List.replicate 16 0)))
        (List.replicate 16 0)).drop 64).take 4) =
      ((footerBytes 0 (vhd_footer_checksum (footerBytes 0 0 (List.replicate 16 0)))
          (List.replicate 16 0)).take 64 ++ [0, 0, 0, 0] ++
        (footerBytes 0 (vhd_footer_checksum (footerBytes 0 0 (List.replicate 16 0)))
          (List.replicate 16 0)).drop 68).sum ^^^ 0xFFFFFFFF := by
  have h := vhd_footer_checksum_reproduces 0 (List.replicate 16 0)
    (footerBytes 0 (vhd_footer_checksum (footerBytes 0 0 (List.replicate 16 0)))
      (List.replicate 16 0))
    (by norm_num) (by decide) (fun b hb => by rw [List.eq_of_mem_replicate hb]; norm_num)
    ((vhd_footer_eq 0 (List.replicate 16 0) (by norm_num) (by decide)
      (fun b hb => by rw [List.eq_of_mem_replicate hb]; norm_num)).2)
  exact ⟨h.1, h.2.1⟩

/-- Claim C6: `convert` fails with the size-alignment error exactly when the input
size is not a multiple of 1,048,576, and in that case the error is raised
before the output file is opened, so the output path keeps its prior
contents. -/
theorem convert_alignment_error (raw uid : List Nat) (vhd0 : Option (List Nat)) :
    ((convert raw uid vhd0).1 =
        Except.error "RAW image size is not aligned to 1 MB" ↔
      raw.length % (1024 * 1024) ≠ 0) ∧
    (raw.length % (1024 * 1024) ≠ 0 → (convert raw uid vhd0).2 = vhd0) := by
  by_cases hm : raw.length % (1024 * 1024) ≠ 0
  · exact ⟨by simp [convert, hm], fun _ => by simp [convert, hm]⟩
  · rw [not_not] at hm
    refine ⟨?_, fun hk => absurd hm hk⟩
    rcases hv : vhd_footer raw.length uid with - | f <;>
      simp [convert, hm, hv]

/-- Witness for C6 at a 1-byte input (misaligned) with empty prior output. -/
theorem convert_alignment_error_witness :
    (convert [0] [] none).1 = Except.error "RAW image size is not aligned to 1 MB" ∧
    (convert [0] [] none).2 = none :=
  ⟨(convert_alignment_error [0] [] none).1.mpr (by decide),
    (convert_alignment_error [0] [] none).2 (by decide)⟩

/-- Claim C7: for every input whose size is a multiple of 1,048,576 (and
representable in the 8-byte size fields of the footer) and every 16-byte unique
id, `convert` succeeds and the output file is the input bytes copied
verbatim followed by exactly the 512-byte footer, so its size is the input
size plus 512. -/
theorem convert_appends_footer (raw uid : List Nat) (vhd0 : Option (List Nat))
    (halign : raw.length % (1024 * 1024) = 0) (h1 : raw.length < 2 ^ 64)
    (h2 : uid.length = 16) (h3 : ∀ b ∈ uid, b < 256) :
    ∃ f, vhd_footer raw.length uid = some f ∧ f.length = 512 ∧
      convert raw uid vhd0 = (Except.ok (), some (raw ++ f)) ∧
      (raw ++ f).length = raw.length + 512 := by
  obtain ⟨hck, hfe⟩ := vhd_footer_eq raw.length uid h1 h2 h3
  have hl := packedFooter_length raw.length (vhd_chs raw.length).1
    (vhd_chs raw.length).2.1 (vhd_chs raw.length).2.2
    (vhd_footer_checksum (footerBytes raw.length 0 uid)) uid h2
  refine ⟨_, hfe, hl, ?_, ?_⟩
  · simp [convert, halign, hfe]
  · simp only [footerBytes] at hl
    simp only [List.length_append, footerBytes, hl]

/-- Witness for C7 on the empty input with the all-zero unique id. -/
theorem convert_appends_footer_witness :
    ∃ f, vhd_footer ([] : List Nat).length (List.replicate 16 0) = some f ∧
      f.length = 512 ∧
      convert [] (List.replicate 16 0) none = (Except.ok (), some ([] ++ f)) ∧
      (([] : List Nat) ++ f).length = ([] : List Nat).length + 512 :=
  convert_appends_footer [] (List.replicate 16 0) none (by decide) (by decide)
    (by decide) (fun b hb => by rw [List.eq_of_mem_replicate hb]; norm_num)

set_option maxRecDepth 40000 in
/-- Counterexample to claim C8: two footers for the same image size whose unique ids
differ have different checksum fields (bytes 64..67), because the checksum
sums the unique id bytes — so the footers are NOT byte-identical in every
field other than the unique id field. -/
theorem vhd_footer_checksum_depends_on_uid :
    (vhd_footer 0 (List.replicate 16 0)).map (fun f => (f.drop 64).take 4) ≠
      (vhd_footer 0 (1 :: List.replicate 15 0)).map (fun f => (f.drop 64).take 4) := by
  decide

/-- Amended claim C8: two runs on the same input produce footers byte-identical in
every field except the 16-byte unique id field AND the 4-byte checksum field
that covers it (bytes 0..63 and bytes 84..511 agree), and output bodies (the
bytes before the footer) that are byte-identical. -/
theorem vhd_footer_deterministic_except_uid_checksum (size : Nat)
    (u1 u2 f1 f2 : List Nat) (h1 : size < 2 ^ 64)
    (hl1 : u1.length = 16) (hl2 : u2.length = 16)
    (hb1 : ∀ b ∈ u1, b < 256) (hb2 : ∀ b ∈ u2, b < 256)
    (hf1 : vhd_footer size u1 = some f1) (hf2 : vhd_footer size u2 = some f2) :
    f1.take 64 = f2.take 64 ∧ f1.drop 84 = f2.drop 84 ∧
    ∀ raw : List Nat, (raw ++ f1).take raw.length = (raw ++ f2).take raw.length := by
  obtain ⟨-, he1⟩ := vhd_footer_eq size u1 h1 hl1 hb1
  obtain ⟨-, he2⟩ := vhd_footer_eq size u2 h1 hl2 hb2
  rw [hf1] at he1
  rw [hf2] at he2
  obtain rfl := Option.some.inj he1
  obtain rfl := Option.some.inj he2
  refine ⟨?_, ?_, ?_⟩
  · simp only [footerBytes, packedFooter_take_64]
  · simp only [footerBytes, packedFooter_drop_84 _ _ _ _ _ _ hl1,
      packedFooter_drop_84 _ _ _ _ _ _ hl2]
  · intro raw
    rw [List.take_left' rfl, List.take_left' rfl]

/-- Witness for C8 at `size = 0` with two distinct all-within-range
unique ids. -/
theorem vhd_footer_deterministic_except_uid_checksum_witness :
    (footerBytes 0 (vhd_footer_checksum (footerBytes 0 0 (List.replicate 16 0)))
        (List.replicate 16 0)).take 64 =
      (footerBytes 0 (vhd_footer_checksum (footerBytes 0 0 (1 :: List.replicate 15 0)))
        (1 :: List.replicate 15 0)).take 64 ∧
    (footerBytes 0 (vhd_footer_checksum (footerBytes 0 0 (List.replicate 16 0)))
        (List.replicate 16 0)).drop 84 =
      (footerBytes 0 (vhd_footer_checksum (footerBytes 0 0 (1 :: List.replicate 15 0)))
        (1 :: List.replicate 15 0)).drop 84 ∧
    ∀ raw : List Nat,
      (raw ++ footerBytes 0 (vhd_footer_checksum (footerBytes 0 0 (List.replicate 16 0)))
        (List.replicate 16 0)).take raw.length =
      (raw ++ footerBytes 0 (vhd_footer_checksum (footerBytes 0 0 (1 :: List.replicate 15 0)))
        (1 :: List.replicate 15 0)).take raw.length :=
  vhd_footer_deterministic_except_uid_checksum 0 (List.replicate 16 0)
    (1 :: List.replicate 15 0) _ _ (by norm_num) (by decide) (by decide)
    (fun b hb => by rw [List.eq_of_mem_replicate hb]; norm_num)
    (fun b hb => by
      rcases List.mem_cons.mp hb with h | h
      · omega
      · rw [List.eq_of_mem_replicate h]; norm_num)
    ((vhd_footer_eq 0 (List.replicate 16 0) (by norm_num) (by decide)
      (fun b hb => by rw [List.eq_of_mem_replicate hb]; norm_num)).2)
    ((vhd_footer_eq 0 (1 :: List.replicate 15 0) (by norm_num) (by decide)
      (fun b hb => by
        rcases List.mem_cons.mp hb with h | h
        · omega
        · rw [List.eq_of_mem_replicate h]; norm_num)).2)

/-- Claim C9: an image size of 0 is accepted (0 is a multiple of 1,048,576),
`vhd_chs 0 = (cylinders 0, heads 4, sectorsPerTrack 17)`, and the output
file is exactly the 512 footer bytes. -/
theorem convert_empty_image (uid : List Nat) (vhd0 : Option (List Nat))
    (h2 : uid.length = 16) (h3 : ∀ b ∈ uid, b < 256) :
    ([] : List Nat).length % (1024 * 1024) = 0 ∧
    vhd_chs 0 = (0, 4, 17) ∧
    ∃ f, vhd_footer 0 uid = some f ∧ f.length = 512 ∧
      convert [] uid vhd0 = (Except.ok (), some f) := by
  obtain ⟨hck, hfe⟩ := vhd_footer_eq 0 uid (by norm_num) h2 h3
  refine ⟨by decide, by decide, _, hfe, packedFooter_length _ _ _ _ _ _ h2, ?_⟩
  simp [convert, hfe]

/-- Witness for C9 with the all-zero unique id and no pre-existing output. -/
theorem convert_empty_image_witness :
    ([] : List Nat).length % (1024 * 1024) = 0 ∧
    vhd_chs 0 = (0, 4, 17) ∧
    ∃ f, vhd_footer 0 (List.replicate 16 0) = some f ∧ f.length = 512 ∧
      convert [] (List.replicate 16 0) none = (Except.ok (), some f) :=
  convert_empty_image (List.replicate 16 0) none (by decide)
    (fun b hb => by rw [List.eq_of_mem_replicate hb]; norm_num)
